import Mathlib

/-!
Shallow embedding of the weather-backend time-series ingestion/query engine
(`src/server.js`, plus the near-identical second entry point's
`findMinMaxTemperature`).

Modelling conventions:
* A JS number holding a temperature, humidity or epoch-millisecond timestamp
  is modelled as `Int`.
* `Date` getters (`getHours`, `getDate`, `getMonth`, `getFullYear`) operate in
  the local timezone; we pass the local-timezone offset `tz` (milliseconds
  east of UTC) explicitly.  The repository's cron job is configured for
  `Asia/Kolkata`, so concrete instances use `tzIST = 19800000`.
* `new Date(string)` on the ISO date-only forms `YYYY`, `YYYY-MM`,
  `YYYY-MM-DD` yields UTC midnight of that date (ECMAScript Date Time String
  Format); anything else is modelled as an invalid date (`none`), standing
  for `NaN`-valued getters.  `parseInt` is modelled as optional-whitespace,
  optional sign, longest decimal-digit prefix.
* A `NaN` produced by a failed parse never compares equal to a number
  (`optEqI none _ = false`), mirroring `NaN === x`.
* The partition file is modelled by `FileState`: absent, present-but-
  unparseable (`corrupt`), or a parsed JSON array of readings (`valid`).
  JSON serialisation of the plain records is assumed value-faithful, so the
  store holds the list itself.
-/

namespace Weather

/-- Milliseconds per hour. -/
def msPerHour : Int := 3600000

/-- Milliseconds per day. -/
def msPerDay : Int := 86400000

/-- Civil (proleptic Gregorian) date from a day number counted from
1970-01-01, as `(year, month 1..12, day 1..31)`.  This is the calendar
arithmetic behind ECMAScript's `YearFromTime`/`MonthFromTime`/`DateFromTime`. -/
def civilFromDays (z0 : Int) : Int × Int × Int :=
  let z := z0 + 719468
  let era := z.fdiv 146097
  let doe := z - era * 146097
  let yoe := (doe - doe.fdiv 1460 + doe.fdiv 36524 - doe.fdiv 146096).fdiv 365
  let y := yoe + era * 400
  let doy := doe - (365 * yoe + yoe.fdiv 4 - yoe.fdiv 100)
  let mp := (5 * doy + 2).fdiv 153
  let d := doy - (153 * mp + 2).fdiv 5 + 1
  let m := mp + (if mp < 10 then 3 else -9)
  (y + (if m ≤ 2 then 1 else 0), m, d)

/-- Day number (from 1970-01-01) of a civil date; inverse of `civilFromDays`. -/
def daysFromCivil (y m d : Int) : Int :=
  let yAdj := y - (if m ≤ 2 then 1 else 0)
  let era := yAdj.fdiv 400
  let yoe := yAdj - era * 400
  let mp := (m + 9).emod 12
  let doy := (153 * mp + 2).fdiv 5 + d - 1
  let doe := yoe * 365 + yoe.fdiv 4 - yoe.fdiv 100 + doy
  era * 146097 + doe - 719468

/-- Local day number of an epoch-millisecond instant under offset `tz`. -/
def localDay (tz t : Int) : Int := (t + tz).fdiv msPerDay

/-- `new Date(t).getHours()` in a timezone with offset `tz` ms. -/
def jsGetHours (tz t : Int) : Int := ((t + tz).fdiv msPerHour).emod 24

/-- `new Date(t).getFullYear()` in a timezone with offset `tz` ms. -/
def jsGetFullYear (tz t : Int) : Int := (civilFromDays (localDay tz t)).1

/-- `new Date(t).getMonth()` (0-based) in a timezone with offset `tz` ms. -/
def jsGetMonth (tz t : Int) : Int := (civilFromDays (localDay tz t)).2.1 - 1

/-- `new Date(t).getDate()` (day of month) in a timezone with offset `tz` ms. -/
def jsGetDate (tz t : Int) : Int := (civilFromDays (localDay tz t)).2.2

/-- The local-timezone offset the deployment runs in (`Asia/Kolkata`,
UTC+5:30), used for concrete instances. -/
def tzIST : Int := 19800000

/-- Epoch milliseconds of local civil time `(y, m, d, h:00)` under offset
`tz`; helper for building concrete readings. -/
def mkTs (tz y m d h : Int) : Int := daysFromCivil y m d * msPerDay + h * msPerHour - tz

/-- Whether `y` is a Gregorian leap year. -/
def isLeap (y : Int) : Bool := y.emod 4 = 0 ∧ (y.emod 100 ≠ 0 ∨ y.emod 400 = 0)

/-- Number of days in month `m` of year `y`. -/
def daysInMonth (y m : Int) : Int :=
  if m = 2 then (if isLeap y then 29 else 28)
  else if m = 4 ∨ m = 6 ∨ m = 9 ∨ m = 11 then 30
  else 31

/-- Value of a list of decimal digit characters. -/
def digitsVal (cs : List Char) : Int :=
  cs.foldl (fun a c => a * 10 + ((c.toNat : Int) - 48)) 0

/-- All characters are decimal digits. -/
def allDigits (cs : List Char) : Bool := cs.all (fun c => c.isDigit)

/-- UTC midnight (epoch ms) of a civil date. -/
def dateMs (y m d : Int) : Int := daysFromCivil y m d * msPerDay

/-- `new Date(s).getTime()` for the ECMAScript date-only string formats
`YYYY`, `YYYY-MM`, `YYYY-MM-DD` (UTC midnight); `none` models an invalid
date (out-of-range fields or an unrecognised format). -/
def jsParseDate (s : String) : Option Int :=
  match s.toList with
  | [a, b, c, d] =>
    if allDigits [a, b, c, d] then some (dateMs (digitsVal [a, b, c, d]) 1 1) else none
  | [a, b, c, d, '-', e, f] =>
    if allDigits [a, b, c, d] ∧ allDigits [e, f] then
      let y := digitsVal [a, b, c, d]
      let mo := digitsVal [e, f]
      if 1 ≤ mo ∧ mo ≤ 12 then some (dateMs y mo 1) else none
    else none
  | [a, b, c, d, '-', e, f, '-', g, h] =>
    if allDigits [a, b, c, d] ∧ allDigits [e, f] ∧ allDigits [g, h] then
      let y := digitsVal [a, b, c, d]
      let mo := digitsVal [e, f]
      let dy := digitsVal [g, h]
      if 1 ≤ mo ∧ mo ≤ 12 ∧ 1 ≤ dy ∧ dy ≤ daysInMonth y mo then
        some (dateMs y mo dy)
      else none
    else none
  | _ => none

/-- JS `parseInt(s)`: skip leading whitespace, optional sign, longest decimal
digit prefix; `none` models `NaN`. -/
def jsParseInt (s : String) : Option Int :=
  let cs := s.toList.dropWhile (fun c => c.isWhitespace)
  let signAndRest : Int × List Char :=
    match cs with
    | '-' :: rest => (-1, rest)
    | '+' :: rest => (1, rest)
    | _ => (1, cs)
  let ds := signAndRest.2.takeWhile (fun c => c.isDigit)
  if ds.isEmpty then none else some (signAndRest.1 * digitsVal ds)

/-- `new Date(v)` where `v` is an optional query-string value
(`new Date(undefined)` is an invalid date). -/
def jsParseDateOpt (v : Option String) : Option Int := v.bind jsParseDate

/-- `parseInt(v)` where `v` is an optional query-string value
(`parseInt(undefined)` is `NaN`). -/
def jsParseIntOpt (v : Option String) : Option Int := v.bind jsParseInt

/-- `===` between a possibly-`NaN` number (`none`) and a number: `NaN`
compares unequal to everything. -/
def optEqI (o : Option Int) (x : Int) : Bool :=
  match o with
  | some v => v == x
  | none => false

/-- One stored weather sample: `{temperature, humidity, timestamp}` with
`timestamp` in epoch milliseconds. -/
structure Reading where
  temperature : Int
  humidity : Int
  timestamp : Int
deriving DecidableEq, Repr

/-- `filterData(data, filterBy, filterValue)` from `server.js`:
single-criterion filter over a partition's readings.  `filterValue` is the
raw optional query-string value. -/
def filterData (tz : Int) (data : List Reading) (filterBy : String)
    (filterValue : Option String) : List Reading :=
  match filterBy with
  | "day" =>
    let filterDay := (jsParseDateOpt filterValue).map (jsGetDate tz)
    data.filter (fun entry => optEqI filterDay (jsGetDate tz entry.timestamp))
  | "month" =>
    let filterMonth := (jsParseDateOpt filterValue).map (jsGetMonth tz)
    data.filter (fun entry => optEqI filterMonth (jsGetMonth tz entry.timestamp))
  | "hour" =>
    let filterHour := jsParseIntOpt filterValue
    data.filter (fun entry => optEqI filterHour (jsGetHours tz entry.timestamp))
  | "timestamp" =>
    let filterTimestamp := jsParseIntOpt filterValue
    data.filter (fun entry => optEqI filterTimestamp entry.timestamp)
  | "year" =>
    let filterYear := (jsParseDateOpt filterValue).map (jsGetFullYear tz)
    data.filter (fun entry => optEqI filterYear (jsGetFullYear tz entry.timestamp))
  | _ => data

/-! ## Partition store (`readWeatherData` / `writeWeatherData`) -/

/-- State of the current month's partition file. -/
inductive FileState where
  /-- The file does not exist (`fs.readFileSync` fails with `ENOENT`). -/
  | absent : FileState
  /-- The file exists but its content is unparseable (`JSON.parse` throws,
  or the read fails for a reason other than `ENOENT`). -/
  | corrupt : FileState
  /-- The file holds the JSON array `rs`. -/
  | valid (rs : List Reading) : FileState
deriving DecidableEq, Repr

/-- What `readWeatherData` logs. -/
inductive ReadLog where
  /-- `Creating new file for <month> in <year>` (`ENOENT` branch). -/
  | creating : ReadLog
  /-- `Error reading weather data` (non-`ENOENT` failure branch). -/
  | readError : ReadLog
  /-- Successful read, nothing logged. -/
  | silent : ReadLog
deriving DecidableEq, Repr

/-- Result of `readWeatherData`: the returned array, the partition file state
after the call, and what was logged.  The function itself never throws: both
failure branches are inside its `try/catch`. -/
structure ReadResult where
  data : List Reading
  state : FileState
  log : ReadLog
deriving DecidableEq, Repr

/-- `writeWeatherData(data)`: overwrite the partition file with the array. -/
def writeWeatherData (data : List Reading) (_s : FileState) : FileState :=
  .valid data

/-- `readWeatherData()` from `server.js`: parse the partition file; on
`ENOENT` create it as an empty array and return `[]`; on any other failure
log and return `[]`. -/
def readWeatherData (s : FileState) : ReadResult :=
  match s with
  | .absent => ⟨[], writeWeatherData [] .absent, .creating⟩
  | .corrupt => ⟨[], .corrupt, .readError⟩
  | .valid rs => ⟨rs, .valid rs, .silent⟩

/-- The parseable stored sequence of a partition file (empty when the file is
absent or unparseable). -/
def storedList (s : FileState) : List Reading :=
  match s with
  | .valid rs => rs
  | _ => []

/-! ## Ingestion (`fetchDataFromApi`) -/

/-- Body of a successful sensor response: `{temperature, humidity}`. -/
structure ApiData where
  temperature : Int
  humidity : Int
deriving DecidableEq, Repr

/-- What one ingestion cycle logs on completion; in the source every branch
returns normally (the `catch` swallows fetch errors). -/
inductive IngestLog where
  /-- `Data fetched and saved successfully.` -/
  | saved : IngestLog
  /-- `Data for the current hour already exists.` (success, no write). -/
  | skipped : IngestLog
  /-- `Error fetching data from API` (cycle aborted, no write). -/
  | fetchError : IngestLog
deriving DecidableEq, Repr

/-- `fetchDataFromApi()` from `server.js`, with the ambient inputs explicit:
`api` is the sensor response (`none` = fetch failed), `now` the current epoch
instant (`Date.now()`), `s` the partition file state. -/
def fetchDataFromApi (tz : Int) (api : Option ApiData) (now : Int)
    (s : FileState) : IngestLog × FileState :=
  match api with
  | none => (.fetchError, s)
  | some apiData =>
    let newWeatherData : Reading := ⟨apiData.temperature, apiData.humidity, now⟩
    let r := readWeatherData s
    let currentHour := jsGetHours tz now
    let hasCurrentHourData :=
      r.data.any (fun entry => jsGetHours tz entry.timestamp == currentHour)
    if hasCurrentHourData then (.skipped, r.state)
    else (.saved, writeWeatherData (r.data ++ [newWeatherData]) r.state)

/-- Partition state after a sequence of ingestion cycles, each given by its
sensor response and instant. -/
def runIngest (tz : Int) (steps : List (Option ApiData × Int))
    (s : FileState) : FileState :=
  steps.foldl (fun st step => (fetchDataFromApi tz step.1 step.2 st).2) s

/-! ## `/tempdata` handler (`server.js`) -/

/-- Query parameters of `GET /tempdata`. -/
structure TempQuery where
  date : Option String
  month : Option String
  year : Option String
deriving DecidableEq, Repr

/-- Response of `GET /tempdata`. -/
inductive TempResponse where
  /-- HTTP 200 with `{highest, lowest, day}`. -/
  | ok (highest lowest : Int) (day : String) : TempResponse
  /-- HTTP 404 with `{message}`. -/
  | notFound (message : String) : TempResponse
  /-- HTTP 500 with `{error: "Internal Server Error"}` (the `catch` branch;
  unreachable in this model since the handler body is total). -/
  | serverError : TempResponse
deriving DecidableEq, Repr

/-- The `(filterYear, filterMonth, filterDay)` the handler derives from the
query parameters and the current instant (`filterMonth` 0-based; `none`
models a `NaN` component from a failed parse). -/
def tempdataParams (tz : Int) (q : TempQuery) (now : Int) :
    Option Int × Option Int × Option Int :=
  let filterDate : Option Int :=
    match q.date with
    | some d => jsParseDate d
    | none => some now
  let filterMonth : Option Int :=
    match q.month with
    | some m => (jsParseInt m).map (fun n => n - 1)
    | none => filterDate.map (jsGetMonth tz)
  let filterYear : Option Int :=
    match q.year with
    | some y => jsParseInt y
    | none => filterDate.map (jsGetFullYear tz)
  let filterDay : Option Int := filterDate.map (jsGetDate tz)
  (filterYear, filterMonth, filterDay)

/-- The handler's per-entry conjunctive test: local year, month and day of
the entry's timestamp all equal the derived filter components. -/
def tempdataMatches (tz : Int) (fy fm fd : Option Int) (entry : Reading) : Bool :=
  optEqI fy (jsGetFullYear tz entry.timestamp) &&
  optEqI fm (jsGetMonth tz entry.timestamp) &&
  optEqI fd (jsGetDate tz entry.timestamp)

/-- The conjunctively filtered data of the `/tempdata` handler. -/
def tempdataFiltered (tz now : Int) (data : List Reading) (q : TempQuery) :
    List Reading :=
  let p := tempdataParams tz q now
  data.filter (tempdataMatches tz p.1 p.2.1 p.2.2)

/-- String of a possibly-`NaN` number, as JS template interpolation prints it. -/
def numStr (o : Option Int) : String :=
  match o with
  | some n => toString n
  | none => "NaN"

/-- The `` `${filterYear}-${filterMonth + 1}-${filterDay}` `` day label. -/
def dayLabel (fy fm fd : Option Int) : String :=
  numStr fy ++ "-" ++ numStr (fm.map (fun n => n + 1)) ++ "-" ++ numStr fd

/-- The `GET /tempdata` handler from `server.js`: derive `(year, month, day)`
from the query (defaulting from `now`), filter the loaded partition data by
their conjunction, 404 on an empty result, otherwise `Math.max`/`Math.min`
over the temperatures. -/
def tempdataHandler (tz now : Int) (data : List Reading) (q : TempQuery) :
    TempResponse :=
  let p := tempdataParams tz q now
  match tempdataFiltered tz now data q with
  | [] => .notFound "No data available for the specified day."
  | e :: es =>
    let temps := es.map (fun entry => entry.temperature)
    .ok (temps.foldl max e.temperature) (temps.foldl min e.temperature)
      (dayLabel p.1 p.2.1 p.2.2)

/-! ## `findMinMaxTemperature` (second entry point) -/

/-- `{highest, lowest}` where `none` models JS `null`. -/
structure MinMax where
  highest : Option Int
  lowest : Option Int
deriving DecidableEq, Repr

/-- `findMinMaxTemperature(data, filterBy, filterValue)` from the second
entry point: filter, then `{highest: null, lowest: null}` on an empty result,
else `Math.max`/`Math.min` over the temperatures. -/
def findMinMaxTemperature (tz : Int) (data : List Reading) (filterBy : String)
    (filterValue : Option String) : MinMax :=
  match filterData tz data filterBy filterValue with
  | [] => ⟨none, none⟩
  | e :: es =>
    let temps := es.map (fun entry => entry.temperature)
    ⟨some (temps.foldl max e.temperature), some (temps.foldl min e.temperature)⟩

/-- Number of readings in `l` whose local hour-of-day is `h`. -/
def countHour (tz h : Int) (l : List Reading) : Nat :=
  (l.filter (fun entry => jsGetHours tz entry.timestamp == h)).length

/-- A partition file state reachable by ingestion: a parsed array whose
readings have pairwise-distinct local hours-of-day. -/
def GoodState (tz : Int) (s : FileState) : Prop :=
  ∃ rs, s = .valid rs ∧
    List.Pairwise (fun a b => jsGetHours tz a.timestamp ≠ jsGetHours tz b.timestamp) rs

/-! ## Concrete readings for the filter-correctness claim (C1)

Timestamps `2024-01-05T03:00`, `2024-01-05T14:00`, `2024-02-05T03:00`
in the deployment's local timezone (IST). -/

/-- Reading 1: 2024-01-05T03:00 local. -/
def w1 : Reading := ⟨1, 40, mkTs tzIST 2024 1 5 3⟩

/-- Reading 2: 2024-01-05T14:00 local. -/
def w2 : Reading := ⟨2, 50, mkTs tzIST 2024 1 5 14⟩

/-- Reading 3: 2024-02-05T03:00 local. -/
def w3 : Reading := ⟨3, 60, mkTs tzIST 2024 2 5 3⟩

/-- The three-reading sequence of the filter-correctness claim. -/
def wlist : List Reading := [w1, w2, w3]

/-! ## Concrete partition for the day-scoped query claim (C6) -/

/-- Temperature-10 reading at 2024-03-10T01:00 local. -/
def t1 : Reading := ⟨10, 40, mkTs tzIST 2024 3 10 1⟩

/-- Temperature-22 reading at 2024-03-10T07:00 local. -/
def t2 : Reading := ⟨22, 50, mkTs tzIST 2024 3 10 7⟩

/-- Temperature-15 reading at 2024-03-10T13:00 local. -/
def t3 : Reading := ⟨15, 60, mkTs tzIST 2024 3 10 13⟩

/-- Temperature-99 reading on the previous day, 2024-03-09T05:00 local. -/
def t4 : Reading := ⟨99, 70, mkTs tzIST 2024 3 9 5⟩

/-- A current-month partition holding three readings today and one yesterday. -/
def tdata : List Reading := [t1, t2, t3, t4]

/-- "Today" for the C6 instance: 2024-03-10T12:00 local. -/
def nowC6 : Int := mkTs tzIST 2024 3 10 12

/-- 24 ingestion cycles one hour apart starting at the epoch, all with the
same sensor body: a run that fills every hour-of-day slot. -/
def stepsAllHours : List (Option ApiData × Int) :=
  (List.range 24).map (fun i => (some ⟨20, 30⟩, (i : Int) * msPerHour))

/-! ## Helper lemmas -/

/-- Filtering the empty partition yields the empty list for every criterion. -/
theorem filterData_nil (tz : Int) (filterBy : String) (filterValue : Option String) :
    filterData tz [] filterBy filterValue = [] := by
  unfold filterData
  split <;> rfl

/-- `readWeatherData` returns exactly the parseable stored sequence. -/
theorem readWeatherData_data (s : FileState) :
    (readWeatherData s).data = storedList s := by
  cases s <;> rfl

/-- An ingestion cycle whose dedup scan finds no reading at the current hour
appends the stamped reading and saves. -/
theorem fetchDataFromApi_append (tz now : Int) (api : ApiData) (s : FileState)
    (h : (storedList s).any (fun entry => jsGetHours tz entry.timestamp == jsGetHours tz now) = false) :
    fetchDataFromApi tz (some api) now s =
      (.saved, .valid (storedList s ++ [⟨api.temperature, api.humidity, now⟩])) := by
  cases s <;> simp_all [fetchDataFromApi, readWeatherData, storedList, writeWeatherData]

/-- An ingestion cycle whose dedup scan finds a reading at the current hour
skips the append and leaves the parsed file unchanged. -/
theorem fetchDataFromApi_skip (tz now : Int) (api : ApiData) (rs : List Reading)
    (h : rs.any (fun entry => jsGetHours tz entry.timestamp == jsGetHours tz now) = true) :
    fetchDataFromApi tz (some api) now (.valid rs) = (.skipped, .valid rs) := by
  simp [fetchDataFromApi, readWeatherData, h]

/-- A zero count for hour `h` means the dedup scan for hour `h` fails. -/
theorem any_hour_of_countHour_zero {tz h : Int} {l : List Reading}
    (h0 : countHour tz h l = 0) :
    l.any (fun entry => jsGetHours tz entry.timestamp == h) = false := by
  unfold countHour at h0
  rw [List.length_eq_zero] at h0
  rw [List.any_eq_false]
  intro entry hmem
  have := List.filter_eq_nil_iff.mp h0 entry hmem
  simpa using this

/-- The local hour-of-day always lies in `[0, 24)`. -/
theorem jsGetHours_bounds (tz t : Int) : 0 ≤ jsGetHours tz t ∧ jsGetHours tz t < 24 :=
  ⟨Int.emod_nonneg _ (by norm_num), Int.emod_lt_of_pos _ (by norm_num)⟩

/-- One ingestion cycle preserves the reachable-state invariant: the file
stays a parsed array with pairwise-distinct hours-of-day. -/
theorem goodState_step (tz : Int) (api : Option ApiData) (now : Int) (s : FileState)
    (h : GoodState tz s) : GoodState tz (fetchDataFromApi tz api now s).2 := by
  obtain ⟨rs, rfl, hp⟩ := h
  cases api with
  | none => exact ⟨rs, rfl, hp⟩
  | some a =>
    by_cases hc : rs.any (fun entry => jsGetHours tz entry.timestamp == jsGetHours tz now) = true
    · rw [fetchDataFromApi_skip tz now a rs hc]
      exact ⟨rs, rfl, hp⟩
    · have hc' : rs.any (fun entry => jsGetHours tz entry.timestamp == jsGetHours tz now) = false :=
        by simpa using hc
      rw [fetchDataFromApi_append tz now a _ (by simpa [storedList] using hc')]
      refine ⟨_, rfl, ?_⟩
      simp only [storedList]
      rw [List.pairwise_append]
      refine ⟨hp, List.pairwise_singleton _ _, ?_⟩
      intro x hx y hy
      have hxne := List.any_eq_false.mp hc' x hx
      simp only [List.mem_singleton] at hy
      subst hy
      simpa using hxne

/-- Any run of ingestion cycles preserves the reachable-state invariant. -/
theorem goodState_run (tz : Int) (steps : List (Option ApiData × Int)) (s : FileState)
    (h : GoodState tz s) : GoodState tz (runIngest tz steps s) := by
  induction steps generalizing s with
  | nil => exact h
  | cons hd tl ih => exact ih _ (goodState_step tz hd.1 hd.2 s h)

/-- A list of readings with pairwise-distinct hours-of-day has at most 24
elements. -/
theorem pairwise_hours_length_le (tz : Int) (rs : List Reading)
    (hp : List.Pairwise (fun a b => jsGetHours tz a.timestamp ≠ jsGetHours tz b.timestamp) rs) :
    rs.length ≤ 24 := by
  have hnd : (rs.map (fun r => jsGetHours tz r.timestamp)).Nodup :=
    List.Pairwise.map _ (fun a b hab => hab) hp
  have hsub : (rs.map (fun r => jsGetHours tz r.timestamp)).toFinset ⊆ Finset.Ico (0 : ℤ) 24 := by
    intro x hx
    rw [List.mem_toFinset, List.mem_map] at hx
    obtain ⟨r, _, rfl⟩ := hx
    rw [Finset.mem_Ico]
    exact jsGetHours_bounds tz r.timestamp
  calc rs.length
      = (rs.map (fun r => jsGetHours tz r.timestamp)).length := (List.length_map _ _).symm
    _ = (rs.map (fun r => jsGetHours tz r.timestamp)).toFinset.card :=
        (List.toFinset_card_of_nodup hnd).symm
    _ ≤ (Finset.Ico (0 : ℤ) 24).card := Finset.card_le_card hsub
    _ = 24 := by rw [Int.card_Ico]; rfl

/-- Once a parsed array holds a reading for every hour of the day, any
further ingestion cycle leaves the file unchanged. -/
theorem full_hours_skip (tz : Int) (rs : List Reading)
    (h : ((List.range 24).all (fun hh =>
      rs.any (fun r => jsGetHours tz r.timestamp == (hh : Int)))) = true)
    (api : Option ApiData) (now : Int) :
    (fetchDataFromApi tz api now (.valid rs)).2 = .valid rs := by
  cases api with
  | none => rfl
  | some a =>
    have hb := jsGetHours_bounds tz now
    have hmem : (jsGetHours tz now).toNat ∈ List.range 24 := by
      rw [List.mem_range]
      omega
    have hP := List.all_eq_true.mp h _ hmem
    have hcast : (((jsGetHours tz now).toNat : Nat) : Int) = jsGetHours tz now :=
      Int.toNat_of_nonneg hb.1
    rw [hcast] at hP
    rw [fetchDataFromApi_skip tz now a rs hP]

/-! ## Claim theorems -/

/-- C1 (counterexample): the claim says filtering the three-reading sequence
by criterion `day` with value `2024-01-05` returns exactly the first two
readings; it does not — the `day` case of `filterData` compares only the
day-of-month, so the `2024-02-05T03:00` reading (day 5 as well) also passes
the filter. -/
theorem C1_filter_day_counterexample :
    filterData tzIST wlist "day" (some "2024-01-05") ≠ [w1, w2] := by
  decide

/-- C1 (amended): on the three-reading sequence with timestamps
2024-01-05T03:00, 2024-01-05T14:00, 2024-02-05T03:00 (local time), filtering
by `day = 2024-01-05` returns all three readings (the day filter matches the
day-of-month only, so the February reading matches too); filtering by
`hour = 3` returns readings 1 and 3; filtering by `year = 2024` returns all
three. -/
theorem C1_filter_correctness_amended :
    filterData tzIST wlist "day" (some "2024-01-05") = [w1, w2, w3] ∧
    filterData tzIST wlist "hour" (some "3") = [w1, w3] ∧
    filterData tzIST wlist "year" (some "2024") = [w1, w2, w3] := by
  refine ⟨by decide, by decide, by decide⟩

/-- C3: whenever the `/tempdata` handler's conjunctive year+month+day filter
selects zero readings, the response is the 404 `notFound` with the
documented message — never a 200 `ok` and never the 500 `serverError`. -/
theorem C3_tempdata_404 (tz now : Int) (data : List Reading) (q : TempQuery)
    (h : tempdataFiltered tz now data q = []) :
    tempdataHandler tz now data q = .notFound "No data available for the specified day." := by
  unfold tempdataHandler
  rw [h]

/-- C3 witness: the spec's own example — `GET /tempdata?date=2099-01-01`
against a partition holding only a 2024 reading matches nothing and yields
the 404 response. -/
theorem C3_tempdata_404_witness :
    tempdataFiltered tzIST nowC6 tdata ⟨some "2099-01-01", none, none⟩ = [] ∧
    tempdataHandler tzIST nowC6 tdata ⟨some "2099-01-01", none, none⟩ =
      .notFound "No data available for the specified day." := by
  refine ⟨by decide, C3_tempdata_404 tzIST nowC6 tdata ⟨some "2099-01-01", none, none⟩ (by decide)⟩

/-- C4: the min/max aggregation on an empty sequence of readings returns the
`null` markers `{highest: none, lowest: none}` for every criterion and
value; being a total function returning `none` markers, it never produces
infinities, never produces zero, and never throws. -/
theorem C4_empty_aggregate (tz : Int) (filterBy : String) (filterValue : Option String) :
    findMinMaxTemperature tz [] filterBy filterValue = ⟨none, none⟩ := by
  unfold findMinMaxTemperature
  rw [filterData_nil]

/-- C5: loading a partition whose file exists but is unparseable logs the
read error and returns the empty sequence with the file untouched; the
failure is handled inside `readWeatherData` (a total function), never
propagated to the caller. -/
theorem C5_fail_open_read :
    readWeatherData .corrupt = ⟨[], .corrupt, .readError⟩ := rfl

/-- C6: the `/tempdata` handler derives `(year, month, day)` from explicit
query parameters when given and from the current date otherwise, filters by
their conjunction, and on success returns `{highest, lowest, day}`: with no
parameters on a day holding temperatures `[10, 22, 15]` (plus a reading 99
on the previous day that the conjunctive filter must exclude) it returns
`{highest: 22, lowest: 10, day: "2024-3-10"}`; with `date=2024-03-09` it
selects the other day's reading; with explicit `month=3&year=2024` it
again returns today's aggregate. -/
theorem C6_tempdata_day_scoped :
    tempdataHandler tzIST nowC6 tdata ⟨none, none, none⟩ = .ok 22 10 "2024-3-10" ∧
    tempdataHandler tzIST nowC6 tdata ⟨some "2024-03-09", none, none⟩ = .ok 99 99 "2024-3-9" ∧
    tempdataHandler tzIST nowC6 tdata ⟨none, some "3", some "2024"⟩ = .ok 22 10 "2024-3-10" := by
  refine ⟨by decide, by decide, by decide⟩

/-- C7: reading an absent partition creates it persisted as an empty
sequence (and logs the creation) while returning the empty sequence; after
any read or any write the backing file exists. -/
theorem C7_create_on_first_access :
    readWeatherData .absent = ⟨[], .valid [], .creating⟩ ∧
    (∀ s : FileState, (readWeatherData s).state ≠ .absent) ∧
    (∀ (rs : List Reading) (s : FileState), writeWeatherData rs s ≠ .absent) := by
  refine ⟨rfl, ?_, ?_⟩
  · intro s
    cases s <;> simp [readWeatherData, writeWeatherData]
  · intro rs s
    simp [writeWeatherData]

/-- C8: saving any sequence of readings and loading from the same location
returns the saved sequence, element order preserved. -/
theorem C8_save_load_round_trip (rs : List Reading) (s : FileState) :
    (readWeatherData (writeWeatherData rs s)).data = rs := rfl

/-- C2: ingestion is idempotent per hour-of-day.  (a) For every partition
file state, if some reading in the loaded sequence shares the hour-of-day of
the ingestion instant, the cycle performs no write — the state is returned
unchanged — and completes with the non-error `skipped` log.  (b) Running two
ingestion cycles at instants with the same hour-of-day, starting from any
state whose stored sequence has no reading at that hour, leaves exactly one
stored reading for that hour. -/
theorem C2_ingest_idempotent (tz : Int) :
    (∀ (s : FileState) (api : ApiData) (now : Int),
      (readWeatherData s).data.any
          (fun entry => jsGetHours tz entry.timestamp == jsGetHours tz now) = true →
      fetchDataFromApi tz (some api) now s = (.skipped, s)) ∧
    (∀ (s : FileState) (api1 api2 : ApiData) (now1 now2 : Int),
      jsGetHours tz now1 = jsGetHours tz now2 →
      countHour tz (jsGetHours tz now1) (storedList s) = 0 →
      countHour tz (jsGetHours tz now1)
        (storedList (runIngest tz [(some api1, now1), (some api2, now2)] s)) = 1) := by
  constructor
  · intro s api now h
    cases s with
    | absent => simp [readWeatherData] at h
    | corrupt => simp [readWeatherData] at h
    | valid rs =>
      simp only [readWeatherData] at h
      simp [fetchDataFromApi, readWeatherData, h]
  · intro s api1 api2 now1 now2 hh h0
    have hany := any_hour_of_countHour_zero h0
    have hstep1 := fetchDataFromApi_append tz now1 api1 s hany
    have hrun : runIngest tz [(some api1, now1), (some api2, now2)] s =
        (fetchDataFromApi tz (some api2) now2 (fetchDataFromApi tz (some api1) now1 s).2).2 := rfl
    rw [hrun, hstep1]
    have hany2 : (storedList s ++ [(⟨api1.temperature, api1.humidity, now1⟩ : Reading)]).any
        (fun entry => jsGetHours tz entry.timestamp == jsGetHours tz now2) = true := by
      rw [List.any_eq_true]
      exact ⟨⟨api1.temperature, api1.humidity, now1⟩, by simp, by simp [hh]⟩
    rw [fetchDataFromApi_skip tz now2 api2 _ hany2]
    unfold countHour at h0 ⊢
    simp only [storedList] at h0 ⊢
    rw [List.filter_append, List.length_append, h0]
    simp [hh]

/-- C2 witness: a concrete skip (a reading at hour 3 already stored, second
ingestion at 03:30) and a concrete double-ingestion leaving one reading for
hour 3. -/
theorem C2_ingest_idempotent_witness :
    fetchDataFromApi 0 (some ⟨7, 8⟩) (3 * msPerHour + 1800000)
        (.valid [⟨5, 6, 3 * msPerHour⟩]) = (.skipped, .valid [⟨5, 6, 3 * msPerHour⟩]) ∧
    countHour 0 (jsGetHours 0 (3 * msPerHour))
      (storedList (runIngest 0 [(some ⟨5, 6⟩, 3 * msPerHour),
        (some ⟨7, 8⟩, 3 * msPerHour + 1800000)] (.valid []))) = 1 := by
  refine ⟨(C2_ingest_idempotent 0).1 (.valid [⟨5, 6, 3 * msPerHour⟩]) ⟨7, 8⟩
      (3 * msPerHour + 1800000) (by decide),
    (C2_ingest_idempotent 0).2 (.valid []) ⟨5, 6⟩ ⟨7, 8⟩ (3 * msPerHour)
      (3 * msPerHour + 1800000) (by decide) (by decide)⟩

/-- C10: `filterData` is total at the public interface.  When the filter
value is absent (`none`) or unparseable, `jsParseDateOpt`/`jsParseIntOpt`
yield the `NaN` marker `none`; then every date-criterion and every
numeric-criterion filter returns the empty sequence (the `NaN` comparison
is never true) instead of throwing, and any unrecognized criterion returns
the input unchanged. -/
theorem C10_filter_total (tz : Int) (data : List Reading) (v : Option String) :
    (jsParseDateOpt v = none →
      filterData tz data "day" v = [] ∧
      filterData tz data "month" v = [] ∧
      filterData tz data "year" v = []) ∧
    (jsParseIntOpt v = none →
      filterData tz data "hour" v = [] ∧
      filterData tz data "timestamp" v = []) ∧
    (∀ filterBy : String, filterBy ≠ "day" → filterBy ≠ "month" →
      filterBy ≠ "year" → filterBy ≠ "hour" → filterBy ≠ "timestamp" →
      filterData tz data filterBy v = data) := by
  refine ⟨?_, ?_, ?_⟩
  · intro h
    refine ⟨?_, ?_, ?_⟩ <;> simp [filterData, h, optEqI]
  · intro h
    refine ⟨?_, ?_⟩ <;> simp [filterData, h, optEqI]
  · intro filterBy h1 h2 h3 h4 h5
    unfold filterData
    split <;> simp_all

/-- C10 witness: the non-date, non-numeric value `garbage` parses to the
`NaN` marker and empties the `day` and `hour` filters on a one-reading
partition; the unrecognized criterion `bogus` returns the partition
unchanged. -/
theorem C10_filter_total_witness :
    jsParseDateOpt (some "garbage") = none ∧
    filterData 0 [⟨1, 2, 3⟩] "day" (some "garbage") = [] ∧
    jsParseIntOpt (some "garbage") = none ∧
    filterData 0 [⟨1, 2, 3⟩] "hour" (some "garbage") = [] ∧
    filterData 0 [⟨1, 2, 3⟩] "bogus" (some "garbage") = [⟨1, 2, 3⟩] := by
  refine ⟨by decide,
    ((C10_filter_total 0 [⟨1, 2, 3⟩] (some "garbage")).1 (by decide)).1,
    by decide,
    ((C10_filter_total 0 [⟨1, 2, 3⟩] (some "garbage")).2.1 (by decide)).1,
    (C10_filter_total 0 [⟨1, 2, 3⟩] (some "garbage")).2.2 "bogus"
      (by decide) (by decide) (by decide) (by decide) (by decide)⟩

/-- C9: the dedup check compares only hour-of-day, so every partition state
reachable by repeated ingestion from an empty partition holds readings with
pairwise-distinct hour-of-day values, hence at most 24 readings; and once a
reading exists for all 24 hour values, no further ingestion cycle ever
changes that partition again (so nothing more is appended for the rest of
the month the partition covers). -/
theorem C9_dedup_invariant (tz : Int) (steps : List (Option ApiData × Int)) :
    List.Pairwise (fun a b => jsGetHours tz a.timestamp ≠ jsGetHours tz b.timestamp)
      (storedList (runIngest tz steps (.valid []))) ∧
    (storedList (runIngest tz steps (.valid []))).length ≤ 24 ∧
    (((List.range 24).all (fun hh =>
        (storedList (runIngest tz steps (.valid []))).any
          (fun r => jsGetHours tz r.timestamp == (hh : Int)))) = true →
      ∀ (api : Option ApiData) (now : Int),
        (fetchDataFromApi tz api now (runIngest tz steps (.valid []))).2 =
          runIngest tz steps (.valid [])) := by
  obtain ⟨rs, heq, hp⟩ :=
    goodState_run tz steps (.valid []) ⟨[], rfl, List.Pairwise.nil⟩
  rw [heq]
  exact ⟨hp, pairwise_hours_length_le tz rs hp,
    fun hall api now => full_hours_skip tz rs hall api now⟩

/-- C9 witness: 24 hourly ingestion cycles from an empty partition fill all
24 hour slots, after which a 25th cycle (hour 6 of the next day) leaves the
partition unchanged. -/
theorem C9_dedup_invariant_witness :
    ((List.range 24).all (fun hh =>
      (storedList (runIngest 0 stepsAllHours (.valid []))).any
        (fun r => jsGetHours 0 r.timestamp == (hh : Int)))) = true ∧
    (fetchDataFromApi 0 (some ⟨7, 8⟩) (30 * msPerHour)
        (runIngest 0 stepsAllHours (.valid []))).2 =
      runIngest 0 stepsAllHours (.valid []) :=
  ⟨by decide,
    (C9_dedup_invariant 0 stepsAllHours).2.2 (by decide) (some ⟨7, 8⟩) (30 * msPerHour)⟩

end Weather
